import Mathlib

/-!
Shallow embedding of `Hash generator/Hash_generator.py`: the derivation
pipeline (scheme dispatch, triple-run reliability check, salt handling and
size-category truncation), with the external KDF primitives
(`hashlib.pbkdf2_hmac` and `argon2.low_level.hash_secret_raw`) modelled as an
abstract library environment, and `base64.urlsafe_b64encode` modelled
concretely.
-/

set_option maxRecDepth 200000
set_option maxHeartbeats 1000000

namespace HashGen

/-- Byte strings are lists of naturals; actual bytes are below 256. -/
abbrev Bytes := List Nat

/-- UTF-8 encoding of one code point, modelling Python `str.encode("utf-8")`
for a single character. -/
def utf8Char (c : Char) : Bytes :=
  let n := c.toNat
  if n < 128 then [n]
  else if n < 2048 then [192 + n / 64, 128 + n % 64]
  else if n < 65536 then [224 + n / 4096, 128 + n / 64 % 64, 128 + n % 64]
  else [240 + n / 262144, 128 + n / 4096 % 64, 128 + n / 64 % 64, 128 + n % 64]

/-- UTF-8 encoding of a whole string, modelling `password.encode("utf-8")`. -/
def utf8 (s : String) : Bytes := s.data.flatMap utf8Char

/-- The fixed salt constant of the source: `SALT = b'Something_[]_ASDF'`
(17 bytes). -/
def SALT : Bytes := [83, 111, 109, 101, 116, 104, 105, 110, 103, 95, 91, 93, 95, 65, 83, 68, 70]

/-- The 64-character URL-safe base64 alphabet (RFC 4648 Table 2) used by
Python `base64.urlsafe_b64encode`; the padding character `=` is not part of
the alphabet. -/
def b64Alphabet : List Char :=
  ['A','B','C','D','E','F','G','H','I','J','K','L','M',
   'N','O','P','Q','R','S','T','U','V','W','X','Y','Z',
   'a','b','c','d','e','f','g','h','i','j','k','l','m',
   'n','o','p','q','r','s','t','u','v','w','x','y','z',
   '0','1','2','3','4','5','6','7','8','9','-','_']

/-- Character at a given index of the URL-safe base64 alphabet. -/
def b64Char (n : Nat) : Char := b64Alphabet.getD n 'A'

/-- Python `base64.urlsafe_b64encode` on a byte string: standard padded
base64 over the URL-safe alphabet, three input bytes per four output
characters, with `=` padding for a final group of one or two bytes. -/
def base64urlEncode : Bytes → List Char
  | [] => []
  | [b1] => [b64Char (b1 / 4), b64Char (b1 % 4 * 16), '=', '=']
  | [b1, b2] => [b64Char (b1 / 4), b64Char (b1 % 4 * 16 + b2 / 16), b64Char (b2 % 16 * 4), '=']
  | b1 :: b2 :: b3 :: rest =>
      b64Char (b1 / 4) :: b64Char (b1 % 4 * 16 + b2 / 16) ::
        b64Char (b2 % 16 * 4 + b3 / 64) :: b64Char (b3 % 64) :: base64urlEncode rest

/-- The size-category table of the source (`SIZE_MAP`): `none` for a key not
in the dict (a Python `KeyError` on lookup), `some none` for `full` (no
truncation), `some (some n)` for a truncating category. -/
def SIZE_MAP (size : String) : Option (Option Nat) :=
  if size = "short" then some (some 16)
  else if size = "small" then some (some 32)
  else if size = "medium" then some (some 64)
  else if size = "big" then some (some 128)
  else if size = "long" then some (some 236)
  else if size = "huge" then some (some 472)
  else if size = "full" then some none
  else none

/-- Errors raised by the embedded code: `KeyError` from a dict lookup,
`RuntimeError` when the argon2 library is missing (the spec's
`MissingDependency`), and `ValueError` from the reliability check (the
spec's `InconsistentDerivation`). -/
inductive PyErr : Type where
  | keyError (key : String)
  | missingDependency
  | inconsistentDerivation
deriving DecidableEq

/-- Observable side effects of the derivation routines: the console message
printed by `generate_reliable_password` and its one-second pauses. -/
inductive Event : Type where
  | consolePrint (msg : String)
  | sleep (seconds : Nat)
deriving DecidableEq

/-- Abstract model of the external KDF libraries. Each field takes the
invocation index first, so an environment may in principle answer differently
on different calls: exactly the environmental nondeterminism that the
triple-run check of the source guards against. `pbkdf2_hmac` receives the
hash name, the encoded password, the salt, the iteration count and the
requested output length `dklen`; `hash_secret_raw` receives the encoded
password, the salt, `time_cost`, `memory_cost`, `parallelism`, `hash_len`
and the variant name. `argon2Available` records whether the `argon2` import
succeeded. -/
structure KdfLib : Type where
  pbkdf2_hmac : Nat → String → Bytes → Bytes → Nat → Nat → Bytes
  argon2Available : Bool
  hash_secret_raw : Nat → Bytes → Bytes → Nat → Nat → Nat → Nat → String → Bytes

/-- The source's `pbkdf2_hasher`: `hashlib.pbkdf2_hmac("sha256",
password.encode("utf-8"), salt, 500_000, dklen=512)`. -/
def pbkdf2_hasher (lib : KdfLib) (i : Nat) (password : String) (salt : Bytes) :
    Except PyErr Bytes :=
  .ok (lib.pbkdf2_hmac i "sha256" (utf8 password) salt 500000 512)

/-- The source's `argon2_hasher`: raises `RuntimeError` when
`hash_secret_raw is None`, otherwise calls `hash_secret_raw` with
`time_cost=10, memory_cost=102400, parallelism=4, hash_len=512,
type=Type.ID`. -/
def argon2_hasher (lib : KdfLib) (i : Nat) (password : String) (salt : Bytes) :
    Except PyErr Bytes :=
  if lib.argon2Available then
    .ok (lib.hash_secret_raw i (utf8 password) salt 10 102400 4 512 "ID")
  else
    .error .missingDependency

/-- The source's dispatch table mapping a scheme key to its hasher; a
missing key is a Python `KeyError` at lookup time. -/
def dispatch (lib : KdfLib) (scheme : String) :
    Option (Nat → String → Bytes → Except PyErr Bytes) :=
  if scheme = "interactive" then some (pbkdf2_hasher lib)
  else if scheme = "deep" then some (argon2_hasher lib)
  else none

/-- The source's `derive_password`: look up the scheme's hasher, run it, and
return the base64url encoding of `salt + raw` (the index `i` records which
of the three reliability-check invocations this is). -/
def derive_password (lib : KdfLib) (i : Nat) (password scheme : String) (salt : Bytes) :
    Except PyErr (List Char) :=
  match dispatch lib scheme with
  | none => .error (.keyError scheme)
  | some hasher =>
    match hasher i password salt with
    | .error e => .error e
    | .ok raw => .ok (base64urlEncode (salt ++ raw))

/-- The console message printed by `generate_reliable_password`. -/
def genMsg : String := "\n Generating and validating, please wait.\n"

/-- The source's `generate_reliable_password`: print the status message, run
`derive_password` three times with the fixed `SALT` (sleeping one second
after each run), and return the first output when all three are equal
(`len(set(outputs)) == 1`), else raise the inconsistency `ValueError`.
The first component is the trace of observable effects. -/
def generate_reliable_password (lib : KdfLib) (password scheme : String) :
    List Event × Except PyErr (List Char) :=
  match derive_password lib 0 password scheme SALT with
  | .error e => ([.consolePrint genMsg], .error e)
  | .ok o0 =>
    match derive_password lib 1 password scheme SALT with
    | .error e => ([.consolePrint genMsg, .sleep 1], .error e)
    | .ok o1 =>
      match derive_password lib 2 password scheme SALT with
      | .error e => ([.consolePrint genMsg, .sleep 1, .sleep 1], .error e)
      | .ok o2 =>
        ([.consolePrint genMsg, .sleep 1, .sleep 1, .sleep 1],
          let outputs := [o0, o1, o2]
          if outputs.dedup.length = 1 then .ok (outputs.getD 0 [])
          else .error .inconsistentDerivation)

/-- The source's `generate_password_with_size`: derive the reliable full
string, then look up the size category and truncate by Python slicing
(`full_pw[:length]`), which never fails and clamps to the string length. -/
def generate_password_with_size (lib : KdfLib) (password scheme size : String) :
    List Event × Except PyErr (List Char) :=
  let res := generate_reliable_password lib password scheme
  (res.1,
    match res.2 with
    | .error e => .error e
    | .ok full_pw =>
      match SIZE_MAP size with
      | none => .error (.keyError size)
      | some none => .ok full_pw
      | some (some length) => .ok (full_pw.take length))

/-- Raw bytes produced on the i-th invocation by the hasher that the
dispatch table selects for a scheme (a projection of `dispatch`, used to
state theorems; for keys other than the two schemes it is never reached). -/
def selectedRaw (lib : KdfLib) (scheme : String) (i : Nat) (password : String) : Bytes :=
  if scheme = "interactive" then lib.pbkdf2_hmac i "sha256" (utf8 password) SALT 500000 512
  else lib.hash_secret_raw i (utf8 password) SALT 10 102400 4 512 "ID"

/-- Candidate string of one reliability-check run: the base64url encoding of
the salt followed by the raw hasher output of that run. -/
def candidate (lib : KdfLib) (scheme : String) (i : Nat) (password : String) : List Char :=
  base64urlEncode (SALT ++ selectedRaw lib scheme i password)

/-- A deterministic library environment whose PBKDF2 answers are 512 zero
bytes and whose argon2 answers are 512 one bytes, with argon2 present. -/
def constLib : KdfLib where
  pbkdf2_hmac := fun _ _ _ _ _ _ => List.replicate 512 0
  argon2Available := true
  hash_secret_raw := fun _ _ _ _ _ _ _ _ => List.replicate 512 1

/-- A library environment in which the argon2 import failed. -/
def noArgonLib : KdfLib where
  pbkdf2_hmac := fun _ _ _ _ _ _ => List.replicate 512 0
  argon2Available := false
  hash_secret_raw := fun _ _ _ _ _ _ _ _ => List.replicate 512 1

/-- A degenerate library environment answering a single byte, giving a full
derived string shorter than the larger size categories. -/
def shortLib : KdfLib where
  pbkdf2_hmac := fun _ _ _ _ _ _ => [0]
  argon2Available := true
  hash_secret_raw := fun _ _ _ _ _ _ _ _ => [0]

/-- Whitespace recognised by Python `str.strip()` (ASCII range: space, tab,
newline, carriage return, vertical tab, form feed). -/
def isPySpace (c : Char) : Bool :=
  c == ' ' || c == '\t' || c == '\n' || c == '\r' || c.toNat == 11 || c.toNat == 12

/-- Python `s.strip()`: drop surrounding whitespace. -/
def pyStrip (s : String) : String :=
  String.mk (((s.data.dropWhile isPySpace).reverse.dropWhile isPySpace).reverse)

/-- Passphrase resolution performed by `main` (the excluded interactive
layer): take `args.input` when it is a non-empty string, otherwise prompt;
then keep re-prompting while the stripped value is empty. The prompt stream
is modelled as a list of user answers; the result is the first candidate
whose stripped form is non-empty (`none` when the stream runs out). -/
def resolve_input (provided : Option String) (prompts : List String) : Option String :=
  (match provided with
   | some s => if s = "" then prompts else s :: prompts
   | none => prompts).find? (fun s => pyStrip s != "")

/-! Helper lemmas about the base64url encoder. -/

theorem b64Char_mem_alphabet : ∀ n < 64, b64Char n ∈ b64Alphabet := by decide

theorem base64urlEncode_length (bs : Bytes) :
    (base64urlEncode bs).length = (bs.length + 2) / 3 * 4 := by
  induction bs using base64urlEncode.induct with
  | case1 => simp [base64urlEncode]
  | case2 b1 => simp [base64urlEncode]
  | case3 b1 b2 => simp [base64urlEncode]
  | case4 b1 b2 b3 rest ih =>
    simp [base64urlEncode, ih]
    omega

theorem base64urlEncode_append (a b : Bytes) (h : a.length % 3 = 0) :
    base64urlEncode (a ++ b) = base64urlEncode a ++ base64urlEncode b := by
  induction a using base64urlEncode.induct with
  | case1 => simp [base64urlEncode]
  | case2 b1 => simp at h
  | case3 b1 b2 => simp at h
  | case4 b1 b2 b3 rest ih =>
    have hr : rest.length % 3 = 0 := by simp at h; omega
    simp [base64urlEncode, ih hr]

theorem base64urlEncode_mem (bs : Bytes) (h : ∀ b ∈ bs, b < 256) :
    ∀ c ∈ base64urlEncode bs, c ∈ b64Alphabet ∨ c = '=' := by
  induction bs using base64urlEncode.induct with
  | case1 => simp [base64urlEncode]
  | case2 b1 =>
    have h1 : b1 < 256 := h b1 (by simp)
    intro c hc
    simp only [base64urlEncode, List.mem_cons, List.not_mem_nil, or_false] at hc
    rcases hc with rfl | rfl | rfl | rfl
    · exact Or.inl (b64Char_mem_alphabet _ (by omega))
    · exact Or.inl (b64Char_mem_alphabet _ (by omega))
    · exact Or.inr rfl
    · exact Or.inr rfl
  | case3 b1 b2 =>
    have h1 : b1 < 256 := h b1 (by simp)
    have h2 : b2 < 256 := h b2 (by simp)
    intro c hc
    simp only [base64urlEncode, List.mem_cons, List.not_mem_nil, or_false] at hc
    rcases hc with rfl | rfl | rfl | rfl
    · exact Or.inl (b64Char_mem_alphabet _ (by omega))
    · exact Or.inl (b64Char_mem_alphabet _ (by omega))
    · exact Or.inl (b64Char_mem_alphabet _ (by omega))
    · exact Or.inr rfl
  | case4 b1 b2 b3 rest ih =>
    have h1 : b1 < 256 := h b1 (by simp)
    have h2 : b2 < 256 := h b2 (by simp)
    have h3 : b3 < 256 := h b3 (by simp)
    have hrest : ∀ b ∈ rest, b < 256 := fun b hb => h b (by simp [hb])
    intro c hc
    simp only [base64urlEncode, List.mem_cons] at hc
    rcases hc with rfl | rfl | rfl | rfl | hc
    · exact Or.inl (b64Char_mem_alphabet _ (by omega))
    · exact Or.inl (b64Char_mem_alphabet _ (by omega))
    · exact Or.inl (b64Char_mem_alphabet _ (by omega))
    · exact Or.inl (b64Char_mem_alphabet _ (by omega))
    · exact ih hrest c hc

theorem base64urlEncode_take_mem (bs : Bytes) (h : ∀ b ∈ bs, b < 256) :
    ∀ c ∈ (base64urlEncode bs).take (bs.length / 3 * 4), c ∈ b64Alphabet := by
  induction bs using base64urlEncode.induct with
  | case1 => simp [base64urlEncode]
  | case2 b1 => simp [base64urlEncode]
  | case3 b1 b2 => simp [base64urlEncode]
  | case4 b1 b2 b3 rest ih =>
    have h1 : b1 < 256 := h b1 (by simp)
    have h2 : b2 < 256 := h b2 (by simp)
    have h3 : b3 < 256 := h b3 (by simp)
    have hrest : ∀ b ∈ rest, b < 256 := fun b hb => h b (by simp [hb])
    have hlen : (b1 :: b2 :: b3 :: rest).length / 3 * 4 = rest.length / 3 * 4 + 1 + 1 + 1 + 1 := by
      simp; omega
    intro c hc
    rw [hlen] at hc
    simp only [base64urlEncode, List.take_succ_cons, List.mem_cons] at hc
    rcases hc with rfl | rfl | rfl | rfl | hc
    · exact b64Char_mem_alphabet _ (by omega)
    · exact b64Char_mem_alphabet _ (by omega)
    · exact b64Char_mem_alphabet _ (by omega)
    · exact b64Char_mem_alphabet _ (by omega)
    · exact ih hrest c hc

/-! Helper lemma about the set-size test used by the reliability check. -/

theorem dedup_three_iff (a b c : List Char) :
    [a, b, c].dedup.length = 1 ↔ a = b ∧ a = c := by
  by_cases hbc : b = c
  · subst hbc
    by_cases hab : a = b
    · subst hab
      rw [List.dedup_cons_of_mem (by simp), List.dedup_cons_of_mem (by simp),
        List.dedup_cons_of_not_mem (by simp), List.dedup_nil]
      simp
    · rw [List.dedup_cons_of_not_mem (by simp [hab]), List.dedup_cons_of_mem (by simp),
        List.dedup_cons_of_not_mem (by simp), List.dedup_nil]
      simp [hab]
  · by_cases hab : a = b
    · subst hab
      rw [List.dedup_cons_of_mem (by simp), List.dedup_cons_of_not_mem (by simp [hbc]),
        List.dedup_cons_of_not_mem (by simp), List.dedup_nil]
      simp [hbc]
    · by_cases hac : a = c
      · subst hac
        rw [List.dedup_cons_of_mem (by simp), List.dedup_cons_of_not_mem (by simp [hbc]),
          List.dedup_cons_of_not_mem (by simp), List.dedup_nil]
        simp [hab]
      · rw [List.dedup_cons_of_not_mem (by simp [hab, hac]),
          List.dedup_cons_of_not_mem (by simp [hbc]),
          List.dedup_cons_of_not_mem (by simp), List.dedup_nil]
        simp [hab]

/-! Evaluation lemmas for the derivation engine. -/

theorem derive_password_eval (lib : KdfLib) (i : Nat) (p sc : String) :
    derive_password lib i p sc SALT =
      if sc = "interactive" then .ok (candidate lib sc i p)
      else if sc = "deep" then
        (if lib.argon2Available then .ok (candidate lib sc i p)
         else .error .missingDependency)
      else .error (.keyError sc) := by
  by_cases h1 : sc = "interactive"
  · subst h1
    simp [derive_password, dispatch, pbkdf2_hasher, candidate, selectedRaw]
  · by_cases h2 : sc = "deep"
    · subst h2
      by_cases h3 : lib.argon2Available <;>
        simp [derive_password, dispatch, argon2_hasher, candidate, selectedRaw, h1, h3]
    · simp [derive_password, dispatch, h1, h2]

theorem reliable_eval (lib : KdfLib) (p sc : String)
    (havail : sc = "interactive" ∨ (sc = "deep" ∧ lib.argon2Available = true)) :
    (generate_reliable_password lib p sc).2 =
      if candidate lib sc 0 p = candidate lib sc 1 p ∧ candidate lib sc 0 p = candidate lib sc 2 p
      then .ok (candidate lib sc 0 p)
      else .error .inconsistentDerivation := by
  have h0 := derive_password_eval lib 0 p sc
  have h1 := derive_password_eval lib 1 p sc
  have h2 := derive_password_eval lib 2 p sc
  have hok : ∀ i, derive_password lib i p sc SALT = .ok (candidate lib sc i p) := by
    intro i
    rcases havail with h | ⟨h, ha⟩
    · subst h; simp [derive_password_eval]
    · subst h; simp [derive_password_eval, ha]
  unfold generate_reliable_password
  rw [hok 0, hok 1, hok 2]
  simp [dedup_three_iff]

theorem reliable_trace (lib : KdfLib) (p sc : String) :
    ∃ k, k ≤ 3 ∧ (generate_reliable_password lib p sc).1 =
      Event.consolePrint genMsg :: List.replicate k (Event.sleep 1) := by
  unfold generate_reliable_password
  cases hd0 : derive_password lib 0 p sc SALT with
  | error e => exact ⟨0, by omega, rfl⟩
  | ok o0 =>
    cases hd1 : derive_password lib 1 p sc SALT with
    | error e => exact ⟨1, by omega, rfl⟩
    | ok o1 =>
      cases hd2 : derive_password lib 2 p sc SALT with
      | error e => exact ⟨2, by omega, rfl⟩
      | ok o2 => exact ⟨3, by omega, rfl⟩

theorem reliable_ok_candidate (lib : KdfLib) (p sc : String) (full : List Char)
    (h : (generate_reliable_password lib p sc).2 = .ok full) :
    full = candidate lib sc 0 p := by
  by_cases h1 : sc = "interactive" ∨ (sc = "deep" ∧ lib.argon2Available = true)
  · rw [reliable_eval lib p sc h1] at h
    by_cases hc : candidate lib sc 0 p = candidate lib sc 1 p ∧
        candidate lib sc 0 p = candidate lib sc 2 p
    · rw [if_pos hc] at h
      exact (Except.ok.injEq _ _ ▸ h).symm
    · rw [if_neg hc] at h
      exact absurd h (by simp)
  · have herr : ∃ e, derive_password lib 0 p sc SALT = .error e := by
      by_cases ha : sc = "interactive"
      · exact absurd (Or.inl ha) h1
      · by_cases hb : sc = "deep"
        · have hav : lib.argon2Available = false := by
            cases hav : lib.argon2Available
            · rfl
            · exact absurd (Or.inr ⟨hb, hav⟩) h1
          exact ⟨.missingDependency, by rw [derive_password_eval]; simp [ha, hb, hav]⟩
        · exact ⟨.keyError sc, by rw [derive_password_eval]; simp [ha, hb]⟩
    obtain ⟨e, he⟩ := herr
    unfold generate_reliable_password at h
    rw [he] at h
    simp at h

theorem gpws_snd (lib : KdfLib) (p sc size : String) :
    (generate_password_with_size lib p sc size).2 =
      (match (generate_reliable_password lib p sc).2 with
       | .error e => .error e
       | .ok full_pw =>
         match SIZE_MAP size with
         | none => .error (.keyError size)
         | some none => .ok full_pw
         | some (some length) => .ok (full_pw.take length)) := rfl

theorem gpws_fst (lib : KdfLib) (p sc size : String) :
    (generate_password_with_size lib p sc size).1 =
      (generate_reliable_password lib p sc).1 := rfl

theorem gpws_eval_det (lib : KdfLib) (p sc : String)
    (havail : sc = "interactive" ∨ (sc = "deep" ∧ lib.argon2Available = true))
    (hdet1 : selectedRaw lib sc 1 p = selectedRaw lib sc 0 p)
    (hdet2 : selectedRaw lib sc 2 p = selectedRaw lib sc 0 p) :
    (generate_password_with_size lib p sc "full").2
      = .ok (base64urlEncode (SALT ++ selectedRaw lib sc 0 p))
    ∧ ∀ size n, SIZE_MAP size = some (some n) →
        (generate_password_with_size lib p sc size).2
          = .ok ((base64urlEncode (SALT ++ selectedRaw lib sc 0 p)).take n) := by
  have hcand : candidate lib sc 0 p = candidate lib sc 1 p ∧
      candidate lib sc 0 p = candidate lib sc 2 p := by
    unfold candidate
    rw [hdet1, hdet2]
    exact ⟨rfl, rfl⟩
  have hr : (generate_reliable_password lib p sc).2 = .ok (candidate lib sc 0 p) := by
    rw [reliable_eval lib p sc havail, if_pos hcand]
  constructor
  · rw [gpws_snd, hr]
    rfl
  · intro size n h
    rw [gpws_snd, hr, h]
    rfl

theorem except_toOption_some {e : Except PyErr (List Char)} {a : List Char}
    (h : e.toOption = some a) : e = .ok a := by
  cases e with
  | error f => simp [Except.toOption] at h
  | ok v =>
    simp [Except.toOption] at h
    rw [h]

theorem SIZE_MAP_some_le (size : String) (n : Nat) (h : SIZE_MAP size = some (some n)) :
    n ≤ 472 := by
  unfold SIZE_MAP at h
  split_ifs at h <;> simp_all <;> omega

theorem b64Alphabet_printable : ∀ c ∈ b64Alphabet, 33 ≤ c.toNat ∧ c.toNat ≤ 126 := by
  decide

theorem candidate_take_16 (lib : KdfLib) (sc q : String) :
    (candidate lib sc 0 q).take 16
      = ['U','2','9','t','Z','X','R','o','a','W','5','n','X','1','t','d'] := by
  have hsalt : SALT = [83,111,109,101,116,104,105,110,103,95,91,93] ++ [95,65,83,68,70] := rfl
  unfold candidate
  rw [hsalt, List.append_assoc, base64urlEncode_append _ _ (by decide)]
  have henc : base64urlEncode [83,111,109,101,116,104,105,110,103,95,91,93]
      = ['U','2','9','t','Z','X','R','o','a','W','5','n','X','1','t','d'] := by decide
  rw [henc, List.take_append_eq_append_take]
  norm_num

/-! Claim theorems. -/

/-- C1: for every passphrase and scheme whose hasher is present, the
reliable-derivation operation consults the selected hasher exactly through
its three invocations (indices 0, 1 and 2) with identical inputs (the
passphrase and the fixed salt); each raw result is encoded to a candidate
string; the common candidate is returned when all three candidates are
identical, and otherwise the operation fails with the inconsistency error
(the spec's InconsistentDerivation). -/
theorem c1_triple_invocation_consistency (lib : KdfLib) (p sc : String)
    (havail : sc = "interactive" ∨ (sc = "deep" ∧ lib.argon2Available = true)) :
    (∀ lib' : KdfLib, lib'.argon2Available = lib.argon2Available →
      (∀ i, i < 3 → selectedRaw lib' sc i p = selectedRaw lib sc i p) →
      (generate_reliable_password lib' p sc).2 = (generate_reliable_password lib p sc).2)
    ∧ ((candidate lib sc 0 p = candidate lib sc 1 p ∧
          candidate lib sc 0 p = candidate lib sc 2 p) →
        (generate_reliable_password lib p sc).2 = .ok (candidate lib sc 0 p))
    ∧ (¬(candidate lib sc 0 p = candidate lib sc 1 p ∧
          candidate lib sc 0 p = candidate lib sc 2 p) →
        (generate_reliable_password lib p sc).2 = .error .inconsistentDerivation) := by
  have havail' : ∀ lib' : KdfLib, lib'.argon2Available = lib.argon2Available →
      (sc = "interactive" ∨ (sc = "deep" ∧ lib'.argon2Available = true)) := by
    intro lib' he
    rcases havail with h | ⟨h, ha⟩
    · exact Or.inl h
    · exact Or.inr ⟨h, by rw [he, ha]⟩
  refine ⟨?_, ?_, ?_⟩
  · intro lib' he hagree
    rw [reliable_eval lib p sc havail, reliable_eval lib' p sc (havail' lib' he)]
    have hc : ∀ i, i < 3 → candidate lib' sc i p = candidate lib sc i p := by
      intro i hi
      unfold candidate
      rw [hagree i hi]
    rw [hc 0 (by omega), hc 1 (by omega), hc 2 (by omega)]
  · intro hcand
    rw [reliable_eval lib p sc havail, if_pos hcand]
  · intro hcand
    rw [reliable_eval lib p sc havail, if_neg hcand]

/-- Witness for C1 at a concrete deterministic environment. -/
theorem c1_triple_invocation_consistency_witness :
    (generate_reliable_password constLib "pw" "interactive").2
      = .ok (candidate constLib "interactive" 0 "pw") :=
  (c1_triple_invocation_consistency constLib "pw" "interactive" (Or.inl rfl)).2.1 ⟨rfl, rfl⟩

/-- C2: for every non-full size category, the derived output equals the full
derived output truncated to the mapped number of characters (and on failure
both calls fail with the same error). -/
theorem c2_truncation_correctness (lib : KdfLib) (p sc size : String) (n : Nat)
    (h : SIZE_MAP size = some (some n)) :
    (generate_password_with_size lib p sc size).2
      = Except.map (fun s => s.take n) (generate_password_with_size lib p sc "full").2 := by
  rw [gpws_snd, gpws_snd, h]
  cases (generate_reliable_password lib p sc).2 with
  | error e => rfl
  | ok full_pw => rfl

/-- Witness for C2 at a concrete environment and the short category. -/
theorem c2_truncation_correctness_witness :
    SIZE_MAP "short" = some (some 16) ∧
      (generate_password_with_size constLib "pw" "interactive" "short").2
        = Except.map (fun s => s.take 16)
            (generate_password_with_size constLib "pw" "interactive" "full").2 :=
  ⟨rfl, c2_truncation_correctness constLib "pw" "interactive" "short" 16 rfl⟩

/-- C6: the PBKDF2 hasher calls the library's PBKDF2-HMAC primitive with the
sha256 hash, the UTF-8 encoded passphrase, the given salt, exactly 500000
iterations (at least 100000, passed through without clamping) and raw output
length 512; and whenever the environment answers invocations uniformly, the
hasher is a pure deterministic function of passphrase and salt alone. -/
theorem c6_pbkdf2_parameters :
    (∀ (lib : KdfLib) (i : Nat) (p : String) (s : Bytes),
      pbkdf2_hasher lib i p s = .ok (lib.pbkdf2_hmac i "sha256" (utf8 p) s 500000 512))
    ∧ 100000 ≤ 500000
    ∧ (∀ (lib : KdfLib) (i j : Nat) (p : String) (s : Bytes),
        lib.pbkdf2_hmac i "sha256" (utf8 p) s 500000 512
          = lib.pbkdf2_hmac j "sha256" (utf8 p) s 500000 512 →
        pbkdf2_hasher lib i p s = pbkdf2_hasher lib j p s) := by
  refine ⟨fun _ _ _ _ => rfl, by omega, fun lib i j p s h => ?_⟩
  unfold pbkdf2_hasher
  rw [h]

/-- Witness for C6 at a concrete deterministic environment. -/
theorem c6_pbkdf2_parameters_witness :
    pbkdf2_hasher constLib 0 "pw" SALT = pbkdf2_hasher constLib 1 "pw" SALT :=
  c6_pbkdf2_parameters.2.2 constLib 0 1 "pw" SALT rfl

/-- C7: in an environment lacking the argon2 primitive, deriving under the
deep scheme fails — for every passphrase and size — with the
missing-dependency error, a reported error value distinct from the
inconsistency error. -/
theorem c7_missing_dependency (lib : KdfLib) (p size : String)
    (h : lib.argon2Available = false) :
    (generate_password_with_size lib p "deep" size).2 = .error .missingDependency
    ∧ PyErr.missingDependency ≠ PyErr.inconsistentDerivation := by
  constructor
  · have hd : derive_password lib 0 p "deep" SALT = .error .missingDependency := by
      rw [derive_password_eval]
      simp [h]
    have hr : (generate_reliable_password lib p "deep").2 = .error .missingDependency := by
      unfold generate_reliable_password
      rw [hd]
    rw [gpws_snd, hr]
  · simp

/-- Witness for C7 at the concrete argon2-less environment. -/
theorem c7_missing_dependency_witness :
    (generate_password_with_size noArgonLib "x" "deep" "full").2 = .error .missingDependency
    ∧ PyErr.missingDependency ≠ PyErr.inconsistentDerivation :=
  c7_missing_dependency noArgonLib "x" "full" rfl

/-- C9 (amended): the derive operation's observable side effects are exactly
one fixed console status message followed by a one-second pause after each
completed derivation run (at most three); beyond these it is pure
computation reading only the immutable salt constant. -/
theorem c9_effect_trace (lib : KdfLib) (p sc size : String) :
    ∃ k, k ≤ 3 ∧ (generate_password_with_size lib p sc size).1
      = Event.consolePrint genMsg :: List.replicate k (Event.sleep 1) := by
  rw [gpws_fst]
  exact reliable_trace lib p sc

/-- C9 counterexample: at a concrete environment and input the derive
operation emits console output (the fixed status message) and sleeps,
refuting the claim that it performs no I/O. -/
theorem c9_counterexample :
    (generate_password_with_size constLib "x" "interactive" "short").1
      = [Event.consolePrint genMsg, Event.sleep 1, Event.sleep 1, Event.sleep 1] := rfl

/-- C5: under a deterministic environment the full derived secret is exactly
the base64url encoding of the salt concatenated with the selected hasher's
raw output, and every non-full size category returns exactly that encoded
string truncated to its mapped length. -/
theorem c5_full_secret_encoding (lib : KdfLib) (p sc : String)
    (havail : sc = "interactive" ∨ (sc = "deep" ∧ lib.argon2Available = true))
    (hdet1 : selectedRaw lib sc 1 p = selectedRaw lib sc 0 p)
    (hdet2 : selectedRaw lib sc 2 p = selectedRaw lib sc 0 p) :
    (generate_password_with_size lib p sc "full").2
      = .ok (base64urlEncode (SALT ++ selectedRaw lib sc 0 p))
    ∧ ∀ size n, SIZE_MAP size = some (some n) →
        (generate_password_with_size lib p sc size).2
          = .ok ((base64urlEncode (SALT ++ selectedRaw lib sc 0 p)).take n) :=
  gpws_eval_det lib p sc havail hdet1 hdet2

/-- Witness for C5 at a concrete deterministic environment. -/
theorem c5_full_secret_encoding_witness :
    (generate_password_with_size constLib "pw" "interactive" "full").2
      = .ok (base64urlEncode (SALT ++ selectedRaw constLib "interactive" 0 "pw")) :=
  (c5_full_secret_encoding constLib "pw" "interactive" (Or.inl rfl) rfl rfl).1

/-- C3 (amended): the derivation engine itself performs no emptiness check —
with an empty passphrase it derives normally, exactly as for any other
passphrase — and the rejection of blank input is performed only by the
excluded interactive prompt layer of `main`, which re-prompts until the
stripped input is non-empty. -/
theorem c3_empty_passphrase_handling :
    (∀ (provided : Option String) (prompts : List String) (s : String),
      resolve_input provided prompts = some s → pyStrip s ≠ "")
    ∧ (∀ (lib : KdfLib) (size : String) (n : Nat),
        SIZE_MAP size = some (some n) →
        selectedRaw lib "interactive" 1 "" = selectedRaw lib "interactive" 0 "" →
        selectedRaw lib "interactive" 2 "" = selectedRaw lib "interactive" 0 "" →
        (generate_password_with_size lib "" "interactive" size).2
          = .ok ((base64urlEncode (SALT ++ selectedRaw lib "interactive" 0 "")).take n)) := by
  constructor
  · intro provided prompts s h
    have hp := List.find?_some h
    simpa using hp
  · intro lib size n hn hd1 hd2
    exact (gpws_eval_det lib "" "interactive" (Or.inl rfl) hd1 hd2).2 size n hn

/-- Witness for C3's amended statement: a padded prompt answer passes the
blank filter, and the engine succeeds on the empty passphrase. -/
theorem c3_empty_passphrase_handling_witness :
    pyStrip " pw " ≠ "" ∧
    (generate_password_with_size constLib "" "interactive" "medium").2
      = .ok ((base64urlEncode (SALT ++ selectedRaw constLib "interactive" 0 "")).take 64) :=
  ⟨c3_empty_passphrase_handling.1 (some " pw ") [] " pw " (by decide),
   c3_empty_passphrase_handling.2 constLib "medium" 64 rfl rfl rfl⟩

/-- C3 counterexample: with an empty passphrase the engine succeeds,
returning a derived string, instead of failing with an empty-passphrase
error — no emptiness check exists in `generate_password_with_size`. -/
theorem c3_counterexample :
    (generate_password_with_size constLib "" "interactive" "short").2.toOption
      = some ['U','2','9','t','Z','X','R','o','a','W','5','n','X','1','t','d'] := by
  decide

/-- C10: every successful derivation at the short size category returns one
and the same fixed 16-character string — the base64url encoding of the first
twelve salt bytes — independent of passphrase, scheme and environment, so
any two short outputs coincide. -/
theorem c10_short_output_fixed (lib lib' : KdfLib) (p p' sc sc' : String) (r r' : List Char)
    (h : (generate_password_with_size lib p sc "short").2 = .ok r)
    (h' : (generate_password_with_size lib' p' sc' "short").2 = .ok r') :
    r = ['U','2','9','t','Z','X','R','o','a','W','5','n','X','1','t','d'] ∧ r' = r := by
  have key : ∀ (lb : KdfLib) (q scm : String) (s : List Char),
      (generate_password_with_size lb q scm "short").2 = .ok s →
      s = ['U','2','9','t','Z','X','R','o','a','W','5','n','X','1','t','d'] := by
    intro lb q scm s hs
    rw [gpws_snd] at hs
    cases hrel : (generate_reliable_password lb q scm).2 with
    | error e =>
      rw [hrel] at hs
      exact Except.noConfusion hs
    | ok full_pw =>
      rw [hrel] at hs
      have hfull := reliable_ok_candidate lb q scm full_pw hrel
      have hs' : Except.ok (full_pw.take 16) = Except.ok s := hs
      injection hs' with hs2
      rw [← hs2, hfull, candidate_take_16]
  exact ⟨key lib p sc r h, (key lib' p' sc' r' h').trans (key lib p sc r h).symm⟩

/-- Witness for C10: two successful short derivations, under different
passphrases and schemes of a concrete environment, coincide. -/
theorem c10_short_output_fixed_witness :
    (generate_password_with_size constLib "alpha" "interactive" "short").2
      = .ok ['U','2','9','t','Z','X','R','o','a','W','5','n','X','1','t','d']
    ∧ ['U','2','9','t','Z','X','R','o','a','W','5','n','X','1','t','d']
      = ['U','2','9','t','Z','X','R','o','a','W','5','n','X','1','t','d'] := by
  have hA : (generate_password_with_size constLib "alpha" "interactive" "short").2
      = .ok ['U','2','9','t','Z','X','R','o','a','W','5','n','X','1','t','d'] :=
    except_toOption_some (by decide)
  have hB : (generate_password_with_size constLib "beta" "deep" "short").2
      = .ok ['U','2','9','t','Z','X','R','o','a','W','5','n','X','1','t','d'] :=
    except_toOption_some (by decide)
  exact ⟨hA, (c10_short_output_fixed constLib constLib "beta" "alpha" "deep" "interactive"
    _ _ hB hA).2⟩

/-- C8 (amended): the size-application step never fails — Python slicing
clamps, so whenever the mapped length is at least the full string's length
the derived output is the unchanged full string; no invalid-size error
exists in the code. -/
theorem c8_slice_clamps (lib : KdfLib) (p sc size : String) (n : Nat) (full : List Char)
    (hn : SIZE_MAP size = some (some n))
    (hfull : (generate_password_with_size lib p sc "full").2 = .ok full)
    (hge : full.length ≤ n) :
    (generate_password_with_size lib p sc size).2 = .ok full := by
  rw [gpws_snd] at hfull ⊢
  cases hrel : (generate_reliable_password lib p sc).2 with
  | error e =>
    rw [hrel] at hfull
    exact Except.noConfusion hfull
  | ok full_pw =>
    rw [hrel] at hfull
    have hfull' : Except.ok full_pw = Except.ok full := hfull
    injection hfull' with hf
    rw [hn]
    show Except.ok (List.take n full_pw) = Except.ok full
    rw [hf, List.take_of_length_le hge]

/-- Witness for C8's amended statement at the degenerate environment whose
full string (24 characters) is shorter than the huge category (472). -/
theorem c8_slice_clamps_witness :
    (generate_password_with_size shortLib "x" "interactive" "huge").2
      = .ok (base64urlEncode (SALT ++ [0])) := by
  have hfull : (generate_password_with_size shortLib "x" "interactive" "full").2
      = .ok (base64urlEncode (SALT ++ [0])) :=
    except_toOption_some (by decide)
  exact c8_slice_clamps shortLib "x" "interactive" "huge" 472 _ rfl hfull (by decide)

/-- C4 (amended): in an environment whose hasher answers 512 bytes, every
successful derivation is a printable ASCII string whose characters are drawn
from the URL-safe base64 alphabet except that the untruncated full output
may end in the padding character; the truncated categories use the strict
alphabet; and the length is 708 (the full encoded length) for full and
min(mapped length, 708) for every other category. -/
theorem c4_output_contract (lib : KdfLib) (p sc size : String) (r : List Char)
    (hwf : ∀ b ∈ selectedRaw lib sc 0 p, b < 256)
    (hlen : (selectedRaw lib sc 0 p).length = 512)
    (hok : (generate_password_with_size lib p sc size).2 = .ok r) :
    (∀ c ∈ r, c ∈ b64Alphabet ∨ c = '=')
    ∧ (∀ c ∈ r, 33 ≤ c.toNat ∧ c.toNat ≤ 126)
    ∧ (SIZE_MAP size = some none → r.length = 708)
    ∧ (∀ n, SIZE_MAP size = some (some n) →
        r.length = min n 708 ∧ ∀ c ∈ r, c ∈ b64Alphabet) := by
  rw [gpws_snd] at hok
  cases hrel : (generate_reliable_password lib p sc).2 with
  | error e =>
    rw [hrel] at hok
    exact Except.noConfusion hok
  | ok full_pw =>
    rw [hrel] at hok
    have hfull := reliable_ok_candidate lib p sc full_pw hrel
    subst hfull
    have hbs256 : ∀ b ∈ SALT ++ selectedRaw lib sc 0 p, b < 256 := by
      intro b hb
      rcases List.mem_append.1 hb with hb | hb
      · have hsalt : ∀ x ∈ SALT, x < 256 := by decide
        exact hsalt b hb
      · exact hwf b hb
    have hbslen : (SALT ++ selectedRaw lib sc 0 p).length = 529 := by
      rw [List.length_append, hlen]
      rfl
    have hflen : (candidate lib sc 0 p).length = 708 := by
      unfold candidate
      rw [base64urlEncode_length, hbslen]
    have master1 : ∀ c ∈ candidate lib sc 0 p, c ∈ b64Alphabet ∨ c = '=' := by
      unfold candidate
      exact base64urlEncode_mem _ hbs256
    have master2 : ∀ c ∈ (candidate lib sc 0 p).take 704, c ∈ b64Alphabet := by
      unfold candidate
      have h704 : (SALT ++ selectedRaw lib sc 0 p).length / 3 * 4 = 704 := by
        rw [hbslen]
      rw [← h704]
      exact base64urlEncode_take_mem _ hbs256
    have printable : ∀ c ∈ candidate lib sc 0 p, 33 ≤ c.toNat ∧ c.toNat ≤ 126 := by
      intro c hc
      rcases master1 c hc with h | h
      · exact b64Alphabet_printable c h
      · subst h
        decide
    cases hsm : SIZE_MAP size with
    | none =>
      rw [hsm] at hok
      exact Except.noConfusion hok
    | some o =>
      cases o with
      | none =>
        rw [hsm] at hok
        have hok' : Except.ok (candidate lib sc 0 p) = Except.ok r := hok
        injection hok' with hr
        subst hr
        refine ⟨master1, printable, fun _ => hflen, fun n hn => ?_⟩
        simp at hn
      | some n =>
        rw [hsm] at hok
        have hok' : Except.ok ((candidate lib sc 0 p).take n) = Except.ok r := hok
        injection hok' with hr
        subst hr
        have hn472 : n ≤ 472 := SIZE_MAP_some_le size n hsm
        have hstrict : ∀ c ∈ (candidate lib sc 0 p).take n, c ∈ b64Alphabet := by
          intro c hc
          apply master2
          have hmin : n ⊓ 704 = n := min_eq_left (by omega)
          rw [← hmin, ← List.take_take] at hc
          exact List.take_subset _ _ hc
        refine ⟨fun c hc => Or.inl (hstrict c hc),
          fun c hc => b64Alphabet_printable c (hstrict c hc), ?_, ?_⟩
        · intro hfl
          simp at hfl
        · intro m hm
          have hmn : n = m := by simpa using hm
          subst hmn
          constructor
          · rw [List.length_take, hflen]
          · exact hstrict

/-- Witness for C4 at a concrete environment and the medium category. -/
theorem c4_output_contract_witness :
    ((generate_password_with_size constLib "x" "interactive" "medium").2.toOption.getD []).length
      = min 64 708 := by
  have hok : (generate_password_with_size constLib "x" "interactive" "medium").2
      = .ok ((generate_password_with_size constLib "x" "interactive" "medium").2.toOption.getD []) :=
    except_toOption_some (by decide)
  exact ((c4_output_contract constLib "x" "interactive" "medium" _ (by decide) (by decide)
    hok).2.2.2 64 rfl).1

/-- C4 counterexample: the full output at a concrete environment contains
the padding character, which is not in the URL-safe base64 alphabet, so the
claim that every character of every successful result is drawn from that
alphabet fails. -/
theorem c4_counterexample :
    '=' ∈ ((generate_password_with_size constLib "x" "interactive" "full").2.toOption.getD [])
    ∧ '=' ∉ b64Alphabet := by
  decide

/-- C8 counterexample: at a concrete environment the mapped length (472 for
huge) exceeds the full string's length (24), yet the size-application step
succeeds and returns the full string unchanged instead of failing with an
invalid-size error. -/
theorem c8_counterexample :
    SIZE_MAP "huge" = some (some 472)
    ∧ ((generate_password_with_size shortLib "x" "interactive" "full").2.toOption.getD []).length
        = 24
    ∧ (generate_password_with_size shortLib "x" "interactive" "huge").2.toOption
        = (generate_password_with_size shortLib "x" "interactive" "full").2.toOption
    ∧ (generate_password_with_size shortLib "x" "interactive" "huge").2.toOption.isSome
        = true := by
  decide

end HashGen
